import Mathlib

/-!
Verification of the SmartTranscribe video transcription service (src/main.py).
Python strings are embedded as lists of Unicode codepoints (List Nat); pure
string helpers are translated directly, and the effectful request handlers are
parameterised over the outcomes of their external collaborators (the RapidAPI
download service, the yt-dlp downloader, the speech recogniser).
-/

/-- Codepoint of the forward slash character. -/
def slashCp : Nat := 47

/-- Codepoint of the question mark character. -/
def qmarkCp : Nat := 63

/-- Codepoint of the hash character. -/
def hashCp : Nat := 35

/-- Codepoint of the ampersand character. -/
def ampCp : Nat := 38

/-- Codepoint of the equals sign. -/
def eqCp : Nat := 61

/-- Codepoint of the plus sign. -/
def plusCp : Nat := 43

/-- Codepoint of the space character. -/
def spaceCp : Nat := 32

/-- Embedding of a Lean string literal as a list of codepoints, used to write
down the Python string constants of the source. -/
def pyStr (s : String) : List Nat := s.toList.map Char.toNat

/-- ASCII lowercasing of one codepoint, as Python str.lower does on the ASCII
range (the only range the source urls compare against). -/
def lowerCodepoint (n : Nat) : Nat := if 65 ≤ n ∧ n ≤ 90 then n + 32 else n

/-- Model of Python str.lower restricted to the ASCII range. -/
def pyLower (s : List Nat) : List Nat := s.map lowerCodepoint

/-- Boolean prefix test on codepoint lists. -/
def isPrefixB : List Nat → List Nat → Bool
  | [], _ => true
  | _ :: _, [] => false
  | a :: p, b :: s => (a == b) && isPrefixB p s

/-- Boolean substring test, the model of the Python operator testing whether
the pattern p occurs contiguously inside s. -/
def containsSub : List Nat → List Nat → Bool
  | p, [] => p.isEmpty
  | p, c :: t => isPrefixB p (c :: t) || containsSub p t

/-- Model of Python str.split with a one-character separator: the list of
segments between separator occurrences, always nonempty. -/
def pySplitChar (sep : Nat) : List Nat → List (List Nat)
  | [] => [[]]
  | c :: rest =>
    match pySplitChar sep rest with
    | [] => [[]]
    | h :: t => if c = sep then [] :: h :: t else (c :: h) :: t

/-- Everything strictly before the first occurrence of sep, the whole list when
sep is absent: Python split(sep)[0]. -/
def beforeFirstSep (sep : Nat) : List Nat → List Nat
  | [] => []
  | c :: rest => if c = sep then [] else c :: beforeFirstSep sep rest

/-- Everything strictly after the first occurrence of sep, empty when sep is
absent: Python split(sep, 1)[1] with an empty-string default. -/
def afterFirstSep (sep : Nat) : List Nat → List Nat
  | [] => []
  | c :: rest => if c = sep then rest else afterFirstSep sep rest

/-- The platform detector of src/main.py applied to the already lowercased
url, mirroring the chain of substring checks on the local variable url_lower. -/
def detectLower (l : List Nat) : String :=
  if containsSub (pyStr "youtube.com") l || containsSub (pyStr "youtu.be") l then
    "youtube"
  else if containsSub (pyStr "vimeo.com") l then "vimeo"
  else if containsSub (pyStr "tiktok.com") l then "tiktok"
  else if containsSub (pyStr "instagram.com") l then "instagram"
  else if containsSub (pyStr "twitter.com") l || containsSub (pyStr "x.com") l then
    "twitter"
  else if containsSub (pyStr "rumble.com") l then "rumble"
  else if containsSub (pyStr "dailymotion.com") l then "dailymotion"
  else "other"

/-- Translation of detect_platform from src/main.py: lowercase the url and run
the substring checks in source order. -/
def detect_platform (url : List Nat) : String :=
  detectLower (pyLower url)

/-- The nine substrings detect_platform matches against. -/
def platformPatterns : List (List Nat) :=
  [pyStr "youtube.com", pyStr "youtu.be", pyStr "vimeo.com", pyStr "tiktok.com",
   pyStr "instagram.com", pyStr "twitter.com", pyStr "x.com", pyStr "rumble.com",
   pyStr "dailymotion.com"]

/-- The fixed label set detect_platform draws its result from. -/
def platformLabels : List String :=
  ["youtube", "vimeo", "tiktok", "instagram", "twitter", "rumble", "dailymotion",
   "other"]

/-- Query component of urlparse from the Python standard library: the fragment
is cut at the first hash sign, then the query is everything after the first
question mark of what remains (empty when there is none). -/
def urlparseQuery (url : List Nat) : List Nat :=
  afterFirstSep qmarkCp (beforeFirstSep hashCp url)

/-- Splits a name=value field at its first equals sign; none when the field
has no equals sign, mirroring split with maxsplit one in parse_qsl. -/
def splitFirstEq : List Nat → Option (List Nat × List Nat)
  | [] => none
  | c :: rest =>
    if c = eqCp then some ([], rest)
    else
      match splitFirstEq rest with
      | none => none
      | some (n, v) => some (c :: n, v)

/-- Replacement of plus signs by spaces, the part of unquote applied by
parse_qsl before percent decoding (percent decoding itself is not modelled;
it is the identity on the percent-free queries considered here). -/
def plusToSpace (s : List Nat) : List Nat :=
  s.map fun c => if c = plusCp then spaceCp else c

/-- The name and value pairs parse_qs extracts from a query string with its
default options: fields split at ampersands, empty fields skipped, fields
without an equals sign skipped, fields with a blank value skipped. -/
def parseQsPairs (qs : List Nat) : List (List Nat × List Nat) :=
  (pySplitChar ampCp qs).filterMap fun nv =>
    if nv.isEmpty then none
    else
      match splitFirstEq nv with
      | none => none
      | some (n, v) =>
        if v.isEmpty then none else some (plusToSpace n, plusToSpace v)

/-- First value recorded for a key by parse_qs, the model of the Python
expression parsed.get(key, [None])[0] used by the extractor. -/
def getQsParam (qs : List Nat) (key : List Nat) : Option (List Nat) :=
  ((parseQsPairs qs).find? fun pr => pr.1 == key).map fun pr => pr.2

/-- Translation of extract_youtube_video_id from src/main.py. A result of
ok none models the Python function returning None (from the dictionary
lookup default) while ok some models returning a string; error carries the
message of the exception raised after the wrapping except clause. -/
def extract_youtube_video_id (url : List Nat) : Except (List Nat) (Option (List Nat)) :=
  if containsSub (pyStr "youtu.be") url then
    .ok (some (beforeFirstSep qmarkCp ((pySplitChar slashCp url).getLastD [])))
  else if containsSub (pyStr "youtube.com") url then
    .ok (getQsParam (urlparseQuery url) (pyStr "v"))
  else if url.length = 11 then
    .ok (some url)
  else
    .error (pyStr "Failed to extract video ID: Invalid YouTube URL")

/-- Boolean success test on a result. -/
def isOkB {e a : Type} : Except e a → Bool
  | .ok _ => true
  | .error _ => false

/-- The fields of the RapidAPI response that get_youtube_audio_via_rapidapi
inspects, assuming the body parsed as JSON: the HTTP status code, the raw
body text, the printed representation of the parsed data, and the four
optional link fields the code probes. A field holding an empty string models
a JSON string value that is falsy in Python. -/
structure RapidApiResponse where
  status_code : Nat
  text : List Nat
  data_repr : List Nat
  link : Option (List Nat)
  url : Option (List Nat)
  download_url : Option (List Nat)
  mp3_url : Option (List Nat)

/-- Python or on optional strings: the left operand unless it is falsy (absent
or empty), otherwise the right operand. -/
def pyOr (a b : Option (List Nat)) : Option (List Nat) :=
  match a with
  | some v => if v.isEmpty then b else some v
  | none => b

/-- Python truthiness of an optional string. -/
def pyTruthy : Option (List Nat) → Bool
  | none => false
  | some v => !v.isEmpty

/-- The chained lookup data.get of the four candidate link fields, combined
with Python or exactly as in the source. -/
def mp3Chain (r : RapidApiResponse) : Option (List Nat) :=
  pyOr (pyOr (pyOr r.link r.url) r.download_url) r.mp3_url

/-- Translation of get_youtube_audio_via_rapidapi from src/main.py,
parameterised by the response of the remote service: extract the video id
(a failure there is wrapped and re-raised), fail on a non-200 status, chain
the four candidate link fields, fail when the chain is falsy, and otherwise
return the link. -/
def get_youtube_audio_via_rapidapi (video_url : List Nat) (r : RapidApiResponse) :
    Except (List Nat) (List Nat) :=
  match extract_youtube_video_id video_url with
  | .error e => .error (pyStr "Failed to get YouTube audio via RapidAPI: " ++ e)
  | .ok _ =>
    if r.status_code ≠ 200 then
      .error (pyStr "Failed to get YouTube audio via RapidAPI: RapidAPI error: " ++ r.text)
    else
      match mp3Chain r with
      | none =>
        .error (pyStr "Failed to get YouTube audio via RapidAPI: Could not find MP3 URL in response: "
          ++ r.data_repr)
      | some v =>
        if v.isEmpty then
          .error (pyStr "Failed to get YouTube audio via RapidAPI: Could not find MP3 URL in response: "
            ++ r.data_repr)
        else .ok v

/-- Possible outcomes of running the speech recogniser on an audio file:
the record and recognise calls succeed with a text, recognise raises
UnknownValueError, recognise raises RequestError with a message, or loading
the audio file itself raises with a message. -/
inductive RecognitionOutcome where
  | success (text : List Nat)
  | unknownValue
  | requestError (msg : List Nat)
  | audioLoadError (msg : List Nat)

/-- Translation of transcribe_audio from src/main.py, parameterised by the
recogniser outcome on the given file: an unintelligible recording yields a
fixed text, a service failure is re-raised as a wrapped error, any other
failure in the outer try block is wrapped the same way, and a normal
recognition returns the recognised text. -/
def transcribe_audio (outcome : RecognitionOutcome) : Except (List Nat) (List Nat) :=
  match outcome with
  | .success t => .ok t
  | .unknownValue => .ok (pyStr "Could not understand the audio")
  | .requestError m =>
    .error (pyStr "Failed to transcribe audio: Speech recognition service error: " ++ m)
  | .audioLoadError m => .error (pyStr "Failed to transcribe audio: " ++ m)

/-- Response model of the transcribe endpoint, in source field order. -/
structure TranscriptionResponse where
  url : List Nat
  transcript : List Nat
  status : List Nat
  platform : String
deriving DecidableEq

/-- Outcomes of the external collaborators a single transcribe request can
touch: the RapidAPI response, the direct download of a returned link, the
yt-dlp extraction, and the recogniser behaviour per audio file. -/
structure Effects where
  rapidResponse : RapidApiResponse
  download : List Nat → Except (List Nat) (List Nat)
  ytdlp : Except (List Nat) (List Nat)
  recognize : List Nat → RecognitionOutcome

/-- The acquisition step of the handler: RapidAPI link plus direct download
for the youtube platform, yt-dlp for every other platform. -/
def acquireAudio (url : List Nat) (platform : String) (fx : Effects) :
    Except (List Nat) (List Nat) :=
  if platform = "youtube" then
    match get_youtube_audio_via_rapidapi url fx.rapidResponse with
    | .error e => .error e
    | .ok link => fx.download link
  else fx.ytdlp

/-- The cleanup of the finally clause: the temporary directory is removed
whenever it exists, so it never exists after the handler returns. -/
def finallyCleanup (present : Bool) : Bool :=
  if present then false else present

/-- Result of one request to the transcribe endpoint: the HTTP-level response
(a success body or a status code with detail text) and whether the temporary
directory of the request still exists after the handler returns. -/
structure HandlerResult where
  response : Except (Nat × List Nat) TranscriptionResponse
  tempDirExists : Bool

/-- Translation of the transcribe_video handler from src/main.py: detect the
platform, create the temporary directory, acquire the audio, transcribe it,
build the success response; any exception of the try block is converted to a
400 response carrying the exception message, and the finally clause removes
the temporary directory on every exit path. -/
def transcribe_video (url : List Nat) (fx : Effects) : HandlerResult :=
  let platform := detect_platform url
  let body : Except (List Nat) TranscriptionResponse :=
    match acquireAudio url platform fx with
    | .error e => .error e
    | .ok audioFile =>
      match transcribe_audio (fx.recognize audioFile) with
      | .error e => .error e
      | .ok t => .ok ⟨url, t, pyStr "success", platform⟩
  { response :=
      match body with
      | .error e => .error (400, e)
      | .ok r => .ok r
    tempDirExists := finallyCleanup true }

/-- Response model of the health endpoint. -/
structure HealthResponse where
  status : String
  service : String
  supported_platforms : List String
deriving DecidableEq

/-- Translation of health_check from src/main.py: a constant body, written as
a function of the (trivial) request so that distinct invocations can be
compared. -/
def health_check : Unit → HealthResponse := fun _ =>
  { status := "healthy"
    service := "SAM - Video Transcription API"
    supported_platforms :=
      ["YouTube (via RapidAPI)", "Vimeo", "TikTok", "Instagram", "Twitter/X",
       "Rumble", "DailyMotion", "And 1000+ more via yt-dlp"] }

theorem lowerCodepoint_idem (n : Nat) :
    lowerCodepoint (lowerCodepoint n) = lowerCodepoint n := by
  simp only [lowerCodepoint]
  by_cases h : 65 ≤ n ∧ n ≤ 90
  · rw [if_pos h]
    have hno : ¬(65 ≤ n + 32 ∧ n + 32 ≤ 90) := by omega
    rw [if_neg hno]
  · rw [if_neg h, if_neg h]

theorem pyLower_idem (s : List Nat) : pyLower (pyLower s) = pyLower s := by
  induction s with
  | nil => rfl
  | cons c t ih =>
    simp only [pyLower, List.map_cons] at ih ⊢
    rw [lowerCodepoint_idem]
    exact congrArg _ ih

theorem isPrefixB_pyLower (p s : List Nat) (h : isPrefixB p s = true) :
    isPrefixB (pyLower p) (pyLower s) = true := by
  induction p generalizing s with
  | nil => rfl
  | cons a p ih =>
    cases s with
    | nil => simp [isPrefixB] at h
    | cons b s =>
      simp only [isPrefixB, Bool.and_eq_true, beq_iff_eq] at h
      obtain ⟨rfl, hp⟩ := h
      simp only [pyLower, List.map_cons, isPrefixB, beq_self_eq_true, Bool.true_and]
      exact ih s hp

theorem containsSub_pyLower (p s : List Nat) (h : containsSub p s = true) :
    containsSub (pyLower p) (pyLower s) = true := by
  induction s with
  | nil =>
    simp only [containsSub, List.isEmpty_iff] at h
    subst h
    rfl
  | cons c t ih =>
    simp only [containsSub, Bool.or_eq_true] at h
    rcases h with h | h
    · have := isPrefixB_pyLower p (c :: t) h
      simp only [pyLower, List.map_cons] at this ⊢
      simp only [containsSub, Bool.or_eq_true]
      exact Or.inl this
    · simp only [pyLower, List.map_cons, containsSub, Bool.or_eq_true]
      exact Or.inr (ih h)

/-- C3: a url containing youtube.com or youtu.be is classified youtube; a url
whose lowercased form contains none of the nine platform substrings is
classified other; every url is classified with a label of the fixed set, and
the detector is a total function with no error path. -/
theorem detect_platform_labels (u : List Nat) :
    ((containsSub (pyStr "youtube.com") u = true ∨
        containsSub (pyStr "youtu.be") u = true) →
      detect_platform u = "youtube")
    ∧ ((∀ p ∈ platformPatterns, containsSub p (pyLower u) = false) →
      detect_platform u = "other")
    ∧ detect_platform u ∈ platformLabels := by
  refine ⟨?_, ?_, ?_⟩
  · intro h
    have hl : containsSub (pyStr "youtube.com") (pyLower u) = true ∨
        containsSub (pyStr "youtu.be") (pyLower u) = true := by
      rcases h with h | h
      · have := containsSub_pyLower _ _ h
        rw [show pyLower (pyStr "youtube.com") = pyStr "youtube.com" from rfl] at this
        exact Or.inl this
      · have := containsSub_pyLower _ _ h
        rw [show pyLower (pyStr "youtu.be") = pyStr "youtu.be" from rfl] at this
        exact Or.inr this
    simp only [detect_platform, detectLower]
    rcases hl with hl | hl <;> simp [hl]
  · intro h
    simp only [platformPatterns, List.mem_cons, List.not_mem_nil, or_false,
      forall_eq_or_imp, forall_eq] at h
    obtain ⟨h1, h2, h3, h4, h5, h6, h7, h8, h9⟩ := h
    simp [detect_platform, detectLower, h1, h2, h3, h4, h5, h6, h7, h8, h9]
  · simp only [detect_platform, detectLower, platformLabels]
    repeat' split
    all_goals simp

/-- C3 witness at concrete inputs. -/
theorem detect_platform_labels_witness :
    detect_platform (pyStr "https://www.youtube.com/watch?v=a") = "youtube"
    ∧ detect_platform (pyStr "https://example.org/video") = "other" :=
  ⟨(detect_platform_labels (pyStr "https://www.youtube.com/watch?v=a")).1
      (Or.inl (by decide)),
   (detect_platform_labels (pyStr "https://example.org/video")).2.1
      (by decide)⟩

/-- C9: platform detection is case insensitive, since the detector lowercases
its input before any substring check and lowercasing is idempotent. -/
theorem detect_platform_case_insensitive (u : List Nat) :
    detect_platform u = detect_platform (pyLower u) := by
  simp only [detect_platform, pyLower_idem]

/-- C10: a url whose lowercased form contains the substring x.com, as inside
a longer domain such as netflix.com, is classified twitter as long as no
earlier checked platform substring occurs. -/
theorem xcom_classified_twitter (u : List Nat)
    (hx : containsSub (pyStr "x.com") (pyLower u) = true)
    (h1 : containsSub (pyStr "youtube.com") (pyLower u) = false)
    (h2 : containsSub (pyStr "youtu.be") (pyLower u) = false)
    (h3 : containsSub (pyStr "vimeo.com") (pyLower u) = false)
    (h4 : containsSub (pyStr "tiktok.com") (pyLower u) = false)
    (h5 : containsSub (pyStr "instagram.com") (pyLower u) = false) :
    detect_platform u = "twitter" := by
  simp [detect_platform, detectLower, hx, h1, h2, h3, h4, h5]

/-- C10 witness: a netflix url is classified twitter. -/
theorem xcom_classified_twitter_witness :
    detect_platform (pyStr "https://netflix.com/watch") = "twitter" :=
  xcom_classified_twitter (pyStr "https://netflix.com/watch")
    (by decide) (by decide) (by decide) (by decide) (by decide) (by decide)

/-- C2: evaluation of the extractor at a url that contains youtube.com but
carries no v query parameter. The code returns the Python value None, modelled
as ok none, instead of failing with an extraction error as the specification
requires; the annotated return type of the source function is str, so the
None return contradicts the functions own declared contract. -/
theorem extract_returns_none_without_v :
    extract_youtube_video_id (pyStr "https://www.youtube.com/playlist") = .ok none :=
  rfl

/-- C4 counterexample: the eleven character string youtube.com is an id the
extractor can produce (from a watch url whose v parameter carries it), yet
feeding it back does not return it: the second rule fires on the substring
youtube.com and the empty query yields None. -/
theorem extract_idempotent_counterexample :
    extract_youtube_video_id (pyStr "https://www.youtube.com/watch?v=youtube.com")
        = .ok (some (pyStr "youtube.com"))
    ∧ (pyStr "youtube.com").length = 11
    ∧ extract_youtube_video_id (pyStr "youtube.com") ≠ .ok (some (pyStr "youtube.com")) :=
  ⟨rfl, by decide, by intro h; exact Option.noConfusion (Except.ok.inj h)⟩

/-- C4 amended: feeding back an eleven character id returns the same id
provided the id does not contain the substring youtu.be and does not contain
the substring youtube.com; every genuine YouTube id contains no dot and so
satisfies both conditions. -/
theorem extract_idempotent_on_plain_ids (s : List Nat)
    (hlen : s.length = 11)
    (h1 : containsSub (pyStr "youtu.be") s = false)
    (h2 : containsSub (pyStr "youtube.com") s = false) :
    extract_youtube_video_id s = .ok (some s) := by
  simp [extract_youtube_video_id, h1, h2, hlen]

/-- C4 amended witness at a genuine id. -/
theorem extract_idempotent_on_plain_ids_witness :
    extract_youtube_video_id (pyStr "dQw4w9WgXcQ") = .ok (some (pyStr "dQw4w9WgXcQ")) :=
  extract_idempotent_on_plain_ids (pyStr "dQw4w9WgXcQ") (by decide) (by decide) (by decide)

/-- C5 counterexample: a short link url whose query string is exactly the
v assignment of abc12345678 still triggers the first, short link rule and
returns the trailing path component xyz rather than abc12345678. -/
theorem extract_v_param_counterexample :
    urlparseQuery (pyStr "https://youtu.be/xyz?v=abc12345678") = pyStr "v=abc12345678"
    ∧ extract_youtube_video_id (pyStr "https://youtu.be/xyz?v=abc12345678")
        = .ok (some (pyStr "xyz"))
    ∧ pyStr "xyz" ≠ pyStr "abc12345678" :=
  ⟨rfl, rfl, by decide⟩

/-- C5 amended: for every url that contains youtube.com, does not contain
youtu.be, and whose parsed query string is the v assignment of abc12345678,
the extractor returns abc12345678. -/
theorem extract_v_param (u : List Nat)
    (h1 : containsSub (pyStr "youtube.com") u = true)
    (h2 : containsSub (pyStr "youtu.be") u = false)
    (h3 : urlparseQuery u = pyStr "v=abc12345678") :
    extract_youtube_video_id u = .ok (some (pyStr "abc12345678")) := by
  simp only [extract_youtube_video_id, h1, h2, h3, Bool.false_eq_true, if_false, if_true]
  rfl

/-- C5 amended witness at a standard watch url. -/
theorem extract_v_param_witness :
    extract_youtube_video_id (pyStr "https://www.youtube.com/watch?v=abc12345678")
        = .ok (some (pyStr "abc12345678")) :=
  extract_v_param (pyStr "https://www.youtube.com/watch?v=abc12345678")
    (by decide) (by decide) (by decide)

/-- A RapidAPI response with success status and a present link field, used to
exhibit a failing run of the strategy that the remote service did not cause. -/
def rapidGoodResp : RapidApiResponse :=
  { status_code := 200
    text := []
    data_repr := []
    link := some (pyStr "http://cdn.example/audio.mp3")
    url := none
    download_url := none
    mp3_url := none }

/-- C7 counterexample: on the url WWW.YOUTU.BE, which the handler routes to
the youtube strategy, the strategy fails although the remote service returned
a success status and a present link field, because identifier extraction
failed first; so the strategy does not fail exactly when the service errors
or omits the link. -/
theorem rapidapi_counterexample :
    rapidGoodResp.status_code = 200
    ∧ pyTruthy (mp3Chain rapidGoodResp) = true
    ∧ isOkB (get_youtube_audio_via_rapidapi (pyStr "WWW.YOUTU.BE") rapidGoodResp) = false
    ∧ detect_platform (pyStr "WWW.YOUTU.BE") = "youtube" := by
  refine ⟨rfl, by decide, ?_, by decide⟩
  rfl

/-- C7 amended: provided identifier extraction succeeds, the strategy fails
exactly when the remote service returns a non-success status or its response
carries no truthy value in any of the four candidate link fields, and on
success it returns the first truthy link value of the response. -/
theorem rapidapi_link_contract (u : List Nat) (r : RapidApiResponse)
    (h : isOkB (extract_youtube_video_id u) = true) :
    (isOkB (get_youtube_audio_via_rapidapi u r) = true ↔
      (r.status_code = 200 ∧ pyTruthy (mp3Chain r) = true))
    ∧ (∀ v, r.status_code = 200 → mp3Chain r = some v → v.isEmpty = false →
        get_youtube_audio_via_rapidapi u r = .ok v) := by
  cases hE : extract_youtube_video_id u with
  | error e => rw [hE] at h; simp [isOkB] at h
  | ok x =>
    have key : ∀ v, r.status_code = 200 → mp3Chain r = some v → v.isEmpty = false →
        get_youtube_audio_via_rapidapi u r = .ok v := by
      intro v hs hm hv
      simp [get_youtube_audio_via_rapidapi, hE, hs, hm, hv]
    refine ⟨⟨?_, ?_⟩, key⟩
    · intro hok
      by_cases hs : r.status_code = 200
      · refine ⟨hs, ?_⟩
        cases hm : mp3Chain r with
        | none => simp [get_youtube_audio_via_rapidapi, hE, hs, hm, isOkB] at hok
        | some v =>
          cases hv : v.isEmpty with
          | true => simp [get_youtube_audio_via_rapidapi, hE, hs, hm, hv, isOkB] at hok
          | false => simp [pyTruthy, hm, hv]
      · exfalso
        simp [get_youtube_audio_via_rapidapi, hE, hs, isOkB] at hok
    · rintro ⟨hs, ht⟩
      cases hm : mp3Chain r with
      | none => rw [hm] at ht; simp [pyTruthy] at ht
      | some v =>
        rw [hm] at ht
        simp only [pyTruthy, Bool.not_eq_true'] at ht
        rw [key v hs hm ht]
        rfl

/-- A RapidAPI response used to witness the amended contract. -/
def rapidWitnessResp : RapidApiResponse :=
  { status_code := 200
    text := []
    data_repr := []
    link := none
    url := some (pyStr "http://cdn.example/a.mp3")
    download_url := none
    mp3_url := none }

/-- C7 amended witness: on a plain eleven character id and a success response
whose url field holds the link, the strategy returns that link. -/
theorem rapidapi_link_contract_witness :
    isOkB (extract_youtube_video_id (pyStr "abcdefghijk")) = true
    ∧ get_youtube_audio_via_rapidapi (pyStr "abcdefghijk") rapidWitnessResp
        = .ok (pyStr "http://cdn.example/a.mp3") :=
  ⟨by decide,
   (rapidapi_link_contract (pyStr "abcdefghijk") rapidWitnessResp (by decide)).2
     (pyStr "http://cdn.example/a.mp3") rfl rfl (by decide)⟩

/-- C8: the speech to text step returns the fixed unintelligible text instead
of raising when the recogniser cannot understand the audio, raises a wrapped
error when the recognition service fails, and returns the recognised text on
a normal recognition. -/
theorem transcribe_audio_outcomes :
    transcribe_audio RecognitionOutcome.unknownValue
        = .ok (pyStr "Could not understand the audio")
    ∧ (∀ m, isOkB (transcribe_audio (RecognitionOutcome.requestError m)) = false)
    ∧ (∀ t, transcribe_audio (RecognitionOutcome.success t) = .ok t) :=
  ⟨rfl, fun _ => rfl, fun _ => rfl⟩

/-- C1: after any request the temporary directory no longer exists, and
whenever the acquisition step or the transcription step fails, the handler
responds with status 400 and the failing steps message as the body. -/
theorem transcribe_video_error_and_cleanup (url : List Nat) (fx : Effects) :
    (transcribe_video url fx).tempDirExists = false
    ∧ (∀ e, acquireAudio url (detect_platform url) fx = .error e →
        (transcribe_video url fx).response = .error (400, e))
    ∧ (∀ a e, acquireAudio url (detect_platform url) fx = .ok a →
        transcribe_audio (fx.recognize a) = .error e →
        (transcribe_video url fx).response = .error (400, e)) := by
  refine ⟨rfl, ?_, ?_⟩
  · intro e he
    simp [transcribe_video, he]
  · intro a e ha he
    simp [transcribe_video, ha, he]

/-- Collaborator outcomes for the C1 witness: yt-dlp fails with a fixed
message, everything else is inert. -/
def exFx : Effects :=
  { rapidResponse :=
      { status_code := 200, text := [], data_repr := [], link := none,
        url := none, download_url := none, mp3_url := none }
    download := fun _ => .error []
    ytdlp := .error (pyStr "Failed to extract audio via yt-dlp: boom")
    recognize := fun _ => RecognitionOutcome.unknownValue }

/-- C1 witness: a vimeo request whose yt-dlp acquisition fails yields a 400
response carrying the message, and the temporary directory is gone. -/
theorem transcribe_video_error_and_cleanup_witness :
    (transcribe_video (pyStr "https://vimeo.com/1") exFx).tempDirExists = false
    ∧ (transcribe_video (pyStr "https://vimeo.com/1") exFx).response
        = .error (400, pyStr "Failed to extract audio via yt-dlp: boom") :=
  ⟨(transcribe_video_error_and_cleanup (pyStr "https://vimeo.com/1") exFx).1,
   (transcribe_video_error_and_cleanup (pyStr "https://vimeo.com/1") exFx).2.1
     (pyStr "Failed to extract audio via yt-dlp: boom") rfl⟩

/-- C6: the health endpoint is a constant function, so any two invocations
return the identical response, whose status field is healthy. -/
theorem health_check_constant (a b : Unit) :
    health_check a = health_check b ∧ (health_check a).status = "healthy" :=
  ⟨rfl, rfl⟩
